import Mathlib

/-!
# Verification of the hospital-management backend booking/settlement core

This file gives a shallow embedding, in Lean 4, of the appointment-booking,
payment-settlement and doctor-wallet subsystem of the backend
(`backend/api/appointments.py`, `backend/api/payments.py`,
`backend/api/doctor_management.py`, `backend/database/models.py`), and proves
or refutes the specification claims about it.

Modelling conventions:

* Database rows become Lean structures; the database itself is a `State`
  record of lists of rows.  Row updates are `List.map` over the list.
* Calendar time is modelled in whole minutes: a slot carries a `date`
  (day index) and `start` (minutes within the day); the absolute start
  instant is `date * 1440 + start`.  The current instant `now` is a
  parameter of every time-dependent handler.
* Monetary amounts are integer rupees, as in the source (all money columns
  are `Integer`).  Python's `int(total * 0.20)` / `int(total * 0.80)` on a
  non-negative integer number of rupees equals `total * 20 / 100` /
  `total * 80 / 100` in natural-number (floor) division: the IEEE-754
  round-off of the product is far too small to cross an integer boundary
  for any representable fee (fees are validated to the range 100..10000 at
  registration, and the identity holds for all totals below 10^14), so the
  embedding uses exact floor division.
* External effects (Razorpay API, notifications, audit logs, QR image
  rendering) are outside the modelled state; the QR *row* inserted by the
  settlement paths is modelled, since the webhook branches on its
  existence.  FastAPI background tasks (`credit_doctor_wallet`,
  `debit_doctor_wallet` after settlement/refund) are modelled as executing
  after the enclosing handler's commit, which is the order the source
  guarantees.
* `database/models.py` declares `PaymentStatus` with members
  PENDING/SUCCESS/FAILED/REFUNDED/PARTIALLY_REFUNDED — there is no PAID
  member, although `payments.py` reads and writes `PaymentStatus.PAID`
  throughout.  The embedding models the payment-status value written and
  compared at those sites as a distinct `paid` constructor, i.e. it models
  the handler logic as written; the missing enum member is noted where a
  claim touches it.
* The model does not re-check the database-level UNIQUE constraints
  (`wallet_transactions.appointment_id`, `qr_codes.appointment_id`); the
  handlers under study never consult them, and where their violation would
  change an outcome this is noted in the analysis of the claim.
-/

namespace Hospital

/-- Payment-record status values as used by the handlers in
`backend/api/payments.py` (`pending`, `paid`, `failed`, `refunded`).
See the header note: the `paid` value corresponds to the
`PaymentStatus.PAID` attribute the handlers reference. -/
inductive PayStatus where
  | pending
  | paid
  | failed
  | refunded
deriving DecidableEq, Repr

/-- Appointment status strings used by the handlers:
`payment_pending`, `confirmed`, `completed`, `cancelled`. -/
inductive AptStatus where
  | payment_pending
  | confirmed
  | completed
  | cancelled
deriving DecidableEq, Repr

/-- `PaymentMethod` from `backend/api/appointments.py`:
`advance` or `pay_at_clinic`. -/
inductive PayMethod where
  | advance
  | pay_at_clinic
deriving DecidableEq, Repr

/-- `wallet_transactions.transaction_type`: credit, debit or withdrawal. -/
inductive TxnType where
  | credit
  | debit
  | withdrawal
deriving DecidableEq, Repr

/-- The fields of `Doctor` (models.py) consulted by the modelled handlers. -/
structure Doctor where
  id : Nat
  is_available : Bool
  consultation_fee : Nat
  total_consultations : Nat
deriving DecidableEq, Repr

/-- `DoctorSlot` (models.py lines 212..227): doctor, date, start/end time,
`is_booked`, `is_blocked`. `start` and `endt` are minutes within `date`. -/
structure Slot where
  id : Nat
  doctor_id : Nat
  date : Int
  start : Int
  endt : Int
  is_booked : Bool
  is_blocked : Bool
deriving DecidableEq, Repr

/-- `Appointment` (models.py): the fields read or written by the modelled
handlers.  Booking ids are modelled as naturals. -/
structure Appointment where
  id : Nat
  user_id : Nat
  doctor_id : Nat
  slot_id : Nat
  date : Int
  time : Int
  status : AptStatus
  total_amount : Nat
  platform_fee : Nat
  doctor_share : Nat
deriving DecidableEq, Repr

/-- `AppointmentPayment` (models.py lines 280..297). -/
structure Payment where
  appointment_id : Nat
  total_amount : Nat
  platform_fee : Nat
  doctor_share : Nat
  razorpay_order_id : Option Nat
  payment_status : PayStatus
deriving DecidableEq, Repr

/-- `DoctorWallet` (models.py lines 326..339); one per doctor
(`doctor_id` is UNIQUE), so the model keys wallets by `doctor_id`. -/
structure Wallet where
  doctor_id : Nat
  current_balance : Int
  total_earned : Int
  total_withdrawn : Int
  pending_withdrawal : Int
deriving DecidableEq, Repr

/-- `WalletTransaction` (models.py lines 342..358); wallets are keyed by
their doctor id.  Transactions are appended to the end of the state's
list, so the chronologically last transaction is the list's last element. -/
structure Txn where
  doctor_id : Nat
  appointment_id : Option Nat
  amount : Int
  transaction_type : TxnType
  balance_before : Int
  balance_after : Int
deriving DecidableEq, Repr

/-- The database state: one list per table touched by the modelled
handlers.  `qr_codes` keeps only the appointment id of each QR row, the
sole field the handlers branch on. -/
structure State where
  users : List Nat
  doctors : List Doctor
  slots : List Slot
  appointments : List Appointment
  payments : List Payment
  wallets : List Wallet
  txns : List Txn
  qr_codes : List Nat
deriving DecidableEq, Repr

/-- `calculate_payment_breakdown` (appointments.py lines 140..150):
`platform_fee = int(total_amount * 0.20)`,
`doctor_share = total_amount - platform_fee`. -/
def calculate_payment_breakdown (consultation_fee : Nat) :
    Nat × Nat × Nat :=
  let total_amount := consultation_fee
  let platform_fee := total_amount * 20 / 100
  let doctor_share := total_amount - platform_fee
  (total_amount, platform_fee, doctor_share)

/-- The fee split computed when `create_payment_order`
(payments.py lines 403..424) creates a fresh `AppointmentPayment`:
`platform_fee = int(amount * PLATFORM_FEE_PERCENTAGE)` with 0.20 and
`doctor_share = int(amount * DOCTOR_SHARE_PERCENTAGE)` with 0.80 —
note: a truncated product, not `amount - platform_fee`. -/
def create_payment_order_split (amount : Nat) : Nat × Nat × Nat :=
  (amount, amount * 20 / 100, amount * 80 / 100)

/-! ### Doctor wallet ledger

Transactions are stored newest first: the chronologically last committed
transaction is the head of `State.txns`.  Row order inside `State.wallets`
is not observable (the table has a UNIQUE key on `doctor_id` and the
handlers look a wallet up by that key), so a lazily created wallet is
placed at the head of the list.  All amounts passed to the wallet helpers
by the source are non-negative integers (`doctor_share`,
`consultation_fee` which is validated to 100..10000, and the withdrawal
amount which is validated `ge=100`), so amounts are naturals here. -/

/-- Look up the wallet row for a doctor
(`db.query(DoctorWallet).filter(DoctorWallet.doctor_id == doctor_id)`). -/
def findWallet (st : State) (d : Nat) : Option Wallet :=
  st.wallets.find? (fun w => w.doctor_id == d)

/-- Update the wallet row(s) for a doctor in place. -/
def updateWalletRows (st : State) (d : Nat) (f : Wallet → Wallet) : List Wallet :=
  st.wallets.map (fun w => if w.doctor_id == d then f w else w)

/-- Errors raised by the wallet helpers (`HTTPException`s in the source). -/
inductive WalletError where
  | walletNotFound
  | insufficientBalance
  | belowMinimum
deriving DecidableEq, Repr

/-- `credit_doctor_wallet` (payments.py lines 136..185): get the wallet —
lazily creating it with zero balances if absent — append a credit
transaction with `balance_before`/`balance_after` snapshots, then add
`amount` to `current_balance` and `total_earned`. -/
def credit_doctor_wallet (st : State) (doctor_id : Nat) (amount : Nat)
    (appointment_id : Nat) : State :=
  match findWallet st doctor_id with
  | none =>
      let w : Wallet :=
        { doctor_id := doctor_id, current_balance := (amount : Int),
          total_earned := (amount : Int), total_withdrawn := 0,
          pending_withdrawal := 0 }
      let t : Txn :=
        { doctor_id := doctor_id, appointment_id := some appointment_id,
          amount := (amount : Int), transaction_type := TxnType.credit,
          balance_before := 0, balance_after := (amount : Int) }
      { st with wallets := w :: st.wallets, txns := t :: st.txns }
  | some w =>
      let t : Txn :=
        { doctor_id := doctor_id, appointment_id := some appointment_id,
          amount := (amount : Int), transaction_type := TxnType.credit,
          balance_before := w.current_balance,
          balance_after := w.current_balance + (amount : Int) }
      { st with
        wallets := updateWalletRows st doctor_id (fun v =>
          { v with current_balance := v.current_balance + (amount : Int),
                   total_earned := v.total_earned + (amount : Int) }),
        txns := t :: st.txns }

/-- `debit_doctor_wallet` (payments.py lines 188..226): 404 if the wallet
is missing; an insufficient-balance error — with no mutation, no clamping —
if `current_balance < amount`; otherwise append a debit transaction and
subtract `amount` from `current_balance` (note: `total_earned` and
`total_withdrawn` are left untouched). -/
def debit_doctor_wallet (st : State) (doctor_id : Nat) (amount : Nat)
    (appointment_id : Nat) : Except WalletError State :=
  match findWallet st doctor_id with
  | none => .error .walletNotFound
  | some w =>
      if w.current_balance < (amount : Int) then .error .insufficientBalance
      else
        let t : Txn :=
          { doctor_id := doctor_id, appointment_id := some appointment_id,
            amount := (amount : Int), transaction_type := TxnType.debit,
            balance_before := w.current_balance,
            balance_after := w.current_balance - (amount : Int) }
        .ok { st with
          wallets := updateWalletRows st doctor_id (fun v =>
            { v with current_balance := v.current_balance - (amount : Int) }),
          txns := t :: st.txns }

/-- `withdraw_earnings` (doctor_management.py lines 976..1056), wallet
part: 404 if the wallet is missing; reject below the ₹500 minimum;
reject on insufficient balance; otherwise append a withdrawal
transaction (no appointment id), subtract from `current_balance`, and
add the amount to BOTH `total_withdrawn` and `pending_withdrawal`. -/
def withdraw_earnings (st : State) (doctor_id : Nat) (amount : Nat) :
    Except WalletError State :=
  match findWallet st doctor_id with
  | none => .error .walletNotFound
  | some w =>
      if amount < 500 then .error .belowMinimum
      else if w.current_balance < (amount : Int) then .error .insufficientBalance
      else
        let t : Txn :=
          { doctor_id := doctor_id, appointment_id := none,
            amount := (amount : Int), transaction_type := TxnType.withdrawal,
            balance_before := w.current_balance,
            balance_after := w.current_balance - (amount : Int) }
        .ok { st with
          wallets := updateWalletRows st doctor_id (fun v =>
            { v with current_balance := v.current_balance - (amount : Int),
                     total_withdrawn := v.total_withdrawn + (amount : Int),
                     pending_withdrawal := v.pending_withdrawal + (amount : Int) }),
          txns := t :: st.txns }

/-- One wallet operation of the ledger: the three mutators of a doctor's
wallet in the source. -/
inductive WalletOp where
  | credit (amount : Nat) (appointment_id : Nat)
  | debit (amount : Nat) (appointment_id : Nat)
  | withdraw (amount : Nat)
deriving DecidableEq, Repr

/-- Apply one wallet operation; a rejected (error) operation commits
nothing, leaving the state unchanged, exactly as the source raises the
`HTTPException` before any mutation. -/
def applyWalletOp (st : State) (d : Nat) : WalletOp → State
  | .credit a apt => credit_doctor_wallet st d a apt
  | .debit a apt =>
      match debit_doctor_wallet st d a apt with
      | .ok s => s
      | .error _ => st
  | .withdraw a =>
      match withdraw_earnings st d a with
      | .ok s => s
      | .error _ => st

/-- Run a sequence of wallet operations against one doctor's wallet,
keeping only the committed ones. -/
def run_wallet_ops (st : State) (d : Nat) (ops : List WalletOp) : State :=
  ops.foldl (fun s op => applyWalletOp s d op) st

/-- The wallet transactions of one doctor, newest first. -/
def txnsFor (st : State) (d : Nat) : List Txn :=
  st.txns.filter (fun t => t.doctor_id == d)

/-- Sum of the amounts of the debit transactions in a transaction list. -/
def debitSum : List Txn → Int
  | [] => 0
  | t :: l => (if t.transaction_type = TxnType.debit then t.amount else 0) + debitSum l

/-- A state with exactly one fresh wallet (zero balances, no
transactions) for doctor `d`: the starting point of the reconciliation
claim. -/
def initial_wallet_state (d : Nat) : State :=
  { users := [], doctors := [], slots := [], appointments := [],
    payments := [],
    wallets := [{ doctor_id := d, current_balance := 0, total_earned := 0,
                  total_withdrawn := 0, pending_withdrawal := 0 }],
    txns := [], qr_codes := [] }

/-- The reconciliation facts that actually hold of a wallet (see the C3
theorems): `current_balance` equals the `balance_after` of the newest
transaction (or 0 with no transactions), equals
`total_earned - total_withdrawn - (sum of refund debits)`, and is never
negative; additionally a doctor with no wallet row has no transactions. -/
def wallet_inv (st : State) (d : Nat) : Prop :=
  (findWallet st d = none → txnsFor st d = []) ∧
  (∀ w, findWallet st d = some w →
    (match (txnsFor st d).head? with
     | some t => w.current_balance = t.balance_after
     | none => w.current_balance = 0) ∧
    w.current_balance = w.total_earned - w.total_withdrawn - debitSum (txnsFor st d) ∧
    0 ≤ w.current_balance)

/-! ### Booking, settlement, refund, completion handlers -/

/-- Look up a doctor row by id. -/
def findDoctor (st : State) (d : Nat) : Option Doctor :=
  st.doctors.find? (fun doc => doc.id == d)

/-- Look up a slot row by id. -/
def findSlot (st : State) (sid : Nat) : Option Slot :=
  st.slots.find? (fun s => s.id == sid)

/-- Look up the `AppointmentPayment` row of an appointment
(`AppointmentPayment.appointment_id == order_id`). -/
def findPaymentByAppointment (st : State) (aid : Nat) : Option Payment :=
  st.payments.find? (fun p => p.appointment_id == aid)

/-- Look up an `AppointmentPayment` row by its gateway order id
(`AppointmentPayment.razorpay_order_id == order_id`), as the webhook
does. -/
def findPaymentByOrder (st : State) (oid : Nat) : Option Payment :=
  st.payments.find? (fun p => p.razorpay_order_id == some oid)

/-- The count guarding validation 7 of `book_appointment`
(appointments.py lines 589..596): appointments of this doctor on this
date whose status is confirmed or payment_pending. -/
def daily_appointments (st : State) (doctor_id : Nat) (date : Int) : Nat :=
  (st.appointments.filter (fun a =>
    a.doctor_id == doctor_id && a.date == date &&
      (decide (a.status = AptStatus.confirmed) ||
       decide (a.status = AptStatus.payment_pending)))).length

/-- The count the spec's C8 claim speaks of: non-cancelled appointments
of the doctor on the date (this also includes completed ones, which
`daily_appointments` does not count). -/
def noncancelled_appointments (st : State) (doctor_id : Nat) (date : Int) : Nat :=
  (st.appointments.filter (fun a =>
    a.doctor_id == doctor_id && a.date == date &&
      ! decide (a.status = AptStatus.cancelled))).length

/-- The booking request body (appointments.py `AppointmentBookRequest`),
restricted to the fields the handler branches on. -/
structure BookRequest where
  user_id : Nat
  doctor_id : Nat
  slot_id : Nat
  date : Int
  payment_method : PayMethod
deriving DecidableEq, Repr

/-- The rejection reasons of `book_appointment`, in source order. -/
inductive BookError where
  | userNotFound
  | doctorNotFound
  | slotNotFound
  | alreadyBooked
  | wrongDoctor
  | wrongDate
  | pastTime
  | minLeadTime
  | dailyCapReached
deriving DecidableEq, Repr

/-- `book_appointment` (appointments.py lines 502..828).  Validations in
source order: user exists; doctor exists and `is_available`; slot
exists (the source takes it with a FOR UPDATE row lock); slot not
already booked; slot belongs to the requested doctor; slot date matches
the requested date; start not in the past; at least the 1-hour minimum
lead time; fewer than 20 confirmed/payment_pending appointments of the
doctor on the date.  NOTE: the slot's `is_blocked` flag is never
consulted.  On success, in one transaction: the appointment row
(fee split from `calculate_payment_breakdown` on the doctor's current
fee; status `payment_pending` for advance payment, `confirmed` for pay
at clinic), the slot marked booked, an `AppointmentPayment` row in
`pending` status for BOTH payment methods (with the gateway order id
for advance — the source always has one, falling back to a locally
generated mock id when the gateway call fails — and NULL for pay at
clinic), an empty wallet created for the doctor if absent (pay at
clinic only), a QR template row (advance only), and the doctor's
consultation counter incremented.  `booking_id` models the generated
APT id and `gateway_order` the gateway (or fallback) order id. -/
def book_appointment (st : State) (now : Int) (req : BookRequest)
    (booking_id : Nat) (gateway_order : Nat) : Except BookError State :=
  if st.users.contains req.user_id = false then .error .userNotFound
  else
    match st.doctors.find? (fun doc => doc.id == req.doctor_id && doc.is_available) with
    | none => .error .doctorNotFound
    | some doctor =>
      match findSlot st req.slot_id with
      | none => .error .slotNotFound
      | some slot =>
        if slot.is_booked then .error .alreadyBooked
        else if slot.doctor_id != req.doctor_id then .error .wrongDoctor
        else if slot.date != req.date then .error .wrongDate
        else
          let appointment_datetime := req.date * 1440 + slot.start
          if appointment_datetime ≤ now then .error .pastTime
          else if appointment_datetime - now < 60 then .error .minLeadTime
          else if 20 ≤ daily_appointments st req.doctor_id req.date then
            .error .dailyCapReached
          else
            let breakdown := calculate_payment_breakdown doctor.consultation_fee
            let appointment_status :=
              match req.payment_method with
              | .advance => AptStatus.payment_pending
              | .pay_at_clinic => AptStatus.confirmed
            let razorpay_order : Option Nat :=
              match req.payment_method with
              | .advance => some gateway_order
              | .pay_at_clinic => none
            let appointment : Appointment :=
              { id := booking_id, user_id := req.user_id,
                doctor_id := req.doctor_id, slot_id := req.slot_id,
                date := req.date, time := slot.start,
                status := appointment_status,
                total_amount := breakdown.1, platform_fee := breakdown.2.1,
                doctor_share := breakdown.2.2 }
            let payment : Payment :=
              { appointment_id := booking_id, total_amount := breakdown.1,
                platform_fee := breakdown.2.1, doctor_share := breakdown.2.2,
                razorpay_order_id := razorpay_order,
                payment_status := PayStatus.pending }
            let st1 : State := { st with
              appointments := appointment :: st.appointments,
              payments := payment :: st.payments,
              slots := st.slots.map (fun s =>
                if s.id == req.slot_id then { s with is_booked := true } else s) }
            let st2 : State :=
              match req.payment_method, findWallet st1 req.doctor_id with
              | .pay_at_clinic, none =>
                  { st1 with wallets :=
                      { doctor_id := req.doctor_id, current_balance := 0,
                        total_earned := 0, total_withdrawn := 0,
                        pending_withdrawal := 0 } :: st1.wallets }
              | _, _ => st1
            let st3 : State :=
              match req.payment_method with
              | .advance => { st2 with qr_codes := booking_id :: st2.qr_codes }
              | .pay_at_clinic => st2
            .ok { st3 with doctors := st3.doctors.map (fun doc =>
                if doc.id == req.doctor_id then
                  { doc with total_consultations := doc.total_consultations + 1 }
                else doc) }

/-- The rejection reasons of the settlement/refund endpoints. -/
inductive SettleError where
  | invalidSignature
  | appointmentNotFound
  | paymentNotFound
deriving DecidableEq, Repr

/-- `verify_payment` (payments.py lines 483..705), appointment branch.
`sig_valid` is the outcome of `verify_razorpay_signature` (an HMAC
comparison over gateway ids, external to the state); on mismatch
nothing is mutated.  Otherwise the handler loads the appointment (owned
by the caller) and its payment and — with NO check of the payment's
current status — sets the payment to paid, the appointment to
confirmed, inserts a QR row, commits, and then a background task
credits the payment's `doctor_share` to the appointment's doctor.
(The gateway payment id/signature columns are also stamped; they are
never branched on and are not part of the modelled state.) -/
def verify_payment (st : State) (sig_valid : Bool) (user_id : Nat)
    (order_id : Nat) : Except SettleError State :=
  if sig_valid = false then .error .invalidSignature
  else
    match st.appointments.find? (fun a => a.id == order_id && a.user_id == user_id) with
    | none => .error .appointmentNotFound
    | some appointment =>
      match findPaymentByAppointment st order_id with
      | none => .error .paymentNotFound
      | some payment =>
        let st1 : State := { st with
          payments := st.payments.map (fun p =>
            if p.appointment_id == order_id then
              { p with payment_status := PayStatus.paid } else p),
          appointments := st.appointments.map (fun a =>
            if a.id == order_id then { a with status := AptStatus.confirmed } else a),
          qr_codes := order_id :: st.qr_codes }
        .ok (credit_doctor_wallet st1 appointment.doctor_id payment.doctor_share order_id)

/-- `razorpay_webhook` (payments.py lines 741..794) for a
`payment.captured` event whose HMAC signature verified: look the
payment up by gateway order id; if it exists and is NOT already paid,
mark it paid, confirm its appointment, insert a QR row if none exists
yet, commit, and credit the doctor's share in a background task; in
every other case the state is unchanged. -/
def webhook_payment_captured (st : State) (order_id : Nat) : State :=
  match findPaymentByOrder st order_id with
  | none => st
  | some payment =>
    if payment.payment_status = PayStatus.paid then st
    else
      let st1 : State := { st with payments := st.payments.map (fun p =>
        if p.razorpay_order_id == some order_id then
          { p with payment_status := PayStatus.paid } else p) }
      match st1.appointments.find? (fun a => a.id == payment.appointment_id) with
      | none => st1
      | some appointment =>
        let st2 : State := { st1 with appointments := st1.appointments.map (fun a =>
          if a.id == payment.appointment_id then
            { a with status := AptStatus.confirmed } else a) }
        let st3 : State :=
          if st2.qr_codes.contains payment.appointment_id then st2
          else { st2 with qr_codes := payment.appointment_id :: st2.qr_codes }
        credit_doctor_wallet st3 appointment.doctor_id payment.doctor_share
          payment.appointment_id

/-- `razorpay_webhook` (payments.py lines 796..805) for a
`payment.failed` event whose HMAC signature verified: if a payment with
the gateway order id exists, set its status to failed — with NO check
of the current status. -/
def webhook_payment_failed (st : State) (order_id : Nat) : State :=
  match findPaymentByOrder st order_id with
  | none => st
  | some _ =>
      { st with payments := st.payments.map (fun p =>
          if p.razorpay_order_id == some order_id then
            { p with payment_status := PayStatus.failed } else p) }

/-- The rejection reasons of `initiate_refund`. -/
inductive RefundError where
  | appointmentNotFound
  | noPaymentToRefund
  | within24Hours
deriving DecidableEq, Repr

/-- `initiate_refund` (payments.py lines 810..922), appointment branch:
requires the appointment (owned by the caller), a payment in paid
status, and the appointment start at least 24 hours away; then the
gateway refund is issued, the payment is marked refunded, the
appointment cancelled (with cancellation metadata), the transaction
commits, and a background task debits the previously credited
`doctor_share` from the doctor's wallet via `debit_doctor_wallet` —
which raises (changing neither the wallet nor the transaction log, no
clamping) when the balance is insufficient, leaving the committed
refund in place. -/
def initiate_refund (st : State) (now : Int) (user_id : Nat)
    (order_id : Nat) : Except RefundError State :=
  match st.appointments.find? (fun a => a.id == order_id && a.user_id == user_id) with
  | none => .error .appointmentNotFound
  | some appointment =>
    match findPaymentByAppointment st order_id with
    | none => .error .noPaymentToRefund
    | some payment =>
      if payment.payment_status != PayStatus.paid then .error .noPaymentToRefund
      else
        let appointment_time := appointment.date * 1440 + appointment.time
        if appointment_time - now < 24 * 60 then .error .within24Hours
        else
          let st1 : State := { st with
            payments := st.payments.map (fun p =>
              if p.appointment_id == order_id then
                { p with payment_status := PayStatus.refunded } else p),
            appointments := st.appointments.map (fun a =>
              if a.id == order_id then { a with status := AptStatus.cancelled } else a) }
          match debit_doctor_wallet st1 appointment.doctor_id payment.doctor_share order_id with
          | .ok st2 => .ok st2
          | .error _ => .ok st1

/-- The rejection reasons of `complete_appointment`. -/
inductive CompleteError where
  | doctorNotFound
  | appointmentNotFound
deriving DecidableEq, Repr

/-- `complete_appointment` (doctor_management.py lines 823..926): load
the calling doctor and the appointment owned by that doctor (404s
otherwise); then — with NO check of the appointment's current status,
payment method or payment record — set the status to completed,
increment the doctor's consultation counter, and, ONLY IF a wallet row
already exists for the doctor (the wallet table is untouched by the
status update, so the lookup is written against the pre-state), credit
the doctor's CURRENT
`consultation_fee` (not the appointment's recorded `doctor_share`) with
a credit transaction (whose `appointment_id` column is left NULL — the
source records the appointment only inside the JSON metadata blob);
with no wallet row nothing is credited and no wallet is created. -/
def complete_appointment (st : State) (doctor_id : Nat)
    (appointment_id : Nat) : Except CompleteError State :=
  match findDoctor st doctor_id with
  | none => .error .doctorNotFound
  | some doctor =>
    match st.appointments.find? (fun a => a.id == appointment_id && a.doctor_id == doctor_id) with
    | none => .error .appointmentNotFound
    | some _ =>
      let st1 : State := { st with
        appointments := st.appointments.map (fun a =>
          if a.id == appointment_id && a.doctor_id == doctor_id then
            { a with status := AptStatus.completed } else a),
        doctors := st.doctors.map (fun doc =>
          if doc.id == doctor_id then
            { doc with total_consultations := doc.total_consultations + 1 }
          else doc) }
      match findWallet st doctor_id with
      | none => .ok st1
      | some w =>
        .ok { st1 with
          wallets := updateWalletRows st1 doctor_id (fun v =>
            { v with
              current_balance := v.current_balance + (doctor.consultation_fee : Int),
              total_earned := v.total_earned + (doctor.consultation_fee : Int) }),
          txns := { doctor_id := doctor_id, appointment_id := none,
                    amount := (doctor.consultation_fee : Int),
                    transaction_type := TxnType.credit,
                    balance_before := w.current_balance,
                    balance_after := w.current_balance + (doctor.consultation_fee : Int) }
                  :: st1.txns }

/-! ### Concrete fixture states for counterexamples and witnesses -/

/-- C4 fixture: one registered user, one available doctor, and one slot
that is blocked but not booked. -/
def c4doctor : Doctor :=
  { id := 1, is_available := true, consultation_fee := 1000, total_consultations := 0 }

/-- C4 fixture slot: blocked, not booked. -/
def c4slot : Slot :=
  { id := 1, doctor_id := 1, date := 10, start := 600, endt := 630,
    is_booked := false, is_blocked := true }

/-- C4 fixture state. -/
def c4state : State :=
  { users := [5], doctors := [c4doctor], slots := [c4slot], appointments := [],
    payments := [], wallets := [], txns := [], qr_codes := [] }

/-- C4 fixture booking request for the blocked slot. -/
def c4req : BookRequest :=
  { user_id := 5, doctor_id := 1, slot_id := 1, date := 10,
    payment_method := PayMethod.advance }

/-- C8 fixture: twenty already COMPLETED appointments of doctor 1 on the
requested date (non-cancelled, but not counted by the handler's guard). -/
def c8appointments : List Appointment :=
  (List.range 20).map (fun i =>
    { id := 100 + i, user_id := 5, doctor_id := 1, slot_id := 50 + i,
      date := 10, time := (i : Int), status := AptStatus.completed,
      total_amount := 1000, platform_fee := 200, doctor_share := 800 })

/-- C8 fixture doctor. -/
def c8doctor : Doctor :=
  { id := 1, is_available := true, consultation_fee := 1000,
    total_consultations := 20 }

/-- C8 fixture slot: free, unblocked. -/
def c8slot : Slot :=
  { id := 1, doctor_id := 1, date := 10, start := 600, endt := 630,
    is_booked := false, is_blocked := false }

/-- C8 fixture state: free unblocked slot plus the twenty completed
appointments. -/
def c8state : State :=
  { users := [5], doctors := [c8doctor], slots := [c8slot],
    appointments := c8appointments, payments := [], wallets := [], txns := [],
    qr_codes := [] }

/-- C8 fixture request. -/
def c8req : BookRequest :=
  { user_id := 5, doctor_id := 1, slot_id := 1, date := 10,
    payment_method := PayMethod.advance }

/-- C8 witness fixture: twenty CONFIRMED appointments (these the guard
does count). -/
def c8state2 : State :=
  { c8state with
    appointments :=
      c8appointments.map (fun a => { a with status := AptStatus.confirmed }) }

/-- C9 fixture slot: free and unblocked, starting at minute 600 of
day 10. -/
def c9slot : Slot :=
  { id := 1, doctor_id := 1, date := 10, start := 600, endt := 630,
    is_booked := false, is_blocked := false }

/-- C9 fixture doctor. -/
def c9doctor : Doctor :=
  { id := 1, is_available := true, consultation_fee := 1000,
    total_consultations := 0 }

/-- C9 fixture state. -/
def c9state : State :=
  { users := [5], doctors := [c9doctor], slots := [c9slot],
    appointments := [], payments := [], wallets := [], txns := [],
    qr_codes := [] }

/-- C9 fixture request. -/
def c9req : BookRequest :=
  { user_id := 5, doctor_id := 1, slot_id := 1, date := 10,
    payment_method := PayMethod.advance }

/-- C6 fixture slot: free and unblocked. -/
def c6slot : Slot :=
  { id := 1, doctor_id := 1, date := 10, start := 600, endt := 630,
    is_booked := false, is_blocked := false }

/-- C6 fixture doctor. -/
def c6doctor : Doctor :=
  { id := 1, is_available := true, consultation_fee := 1000,
    total_consultations := 0 }

/-- C6 fixture state: no payment rows at all before booking. -/
def c6state : State :=
  { users := [5], doctors := [c6doctor], slots := [c6slot], appointments := [],
    payments := [], wallets := [], txns := [], qr_codes := [] }

/-- C6 fixture request: pay at clinic. -/
def c6req : BookRequest :=
  { user_id := 5, doctor_id := 1, slot_id := 1, date := 10,
    payment_method := PayMethod.pay_at_clinic }

/-- C1 fixture appointment: awaiting settlement. -/
def c1apt : Appointment :=
  { id := 1, user_id := 5, doctor_id := 1, slot_id := 1, date := 10,
    time := 600, status := AptStatus.payment_pending, total_amount := 1000,
    platform_fee := 200, doctor_share := 800 }

/-- C1 fixture payment: pending, gateway order 42. -/
def c1pay : Payment :=
  { appointment_id := 1, total_amount := 1000, platform_fee := 200,
    doctor_share := 800, razorpay_order_id := some 42,
    payment_status := PayStatus.pending }

/-- C1 fixture state. -/
def c1state : State :=
  { users := [5],
    doctors := [{ id := 1, is_available := true, consultation_fee := 1000,
                  total_consultations := 1 }],
    slots := [], appointments := [c1apt], payments := [c1pay], wallets := [],
    txns := [], qr_codes := [] }

/-- C7 fixture appointment: already confirmed. -/
def c7apt : Appointment :=
  { id := 1, user_id := 5, doctor_id := 1, slot_id := 1, date := 10,
    time := 600, status := AptStatus.confirmed, total_amount := 1000,
    platform_fee := 200, doctor_share := 800 }

/-- C7 fixture payment: already PAID, gateway order 42. -/
def c7pay : Payment :=
  { appointment_id := 1, total_amount := 1000, platform_fee := 200,
    doctor_share := 800, razorpay_order_id := some 42,
    payment_status := PayStatus.paid }

/-- C7 fixture state: the payment has settled (wallet already credited). -/
def c7state : State :=
  { users := [5],
    doctors := [{ id := 1, is_available := true, consultation_fee := 1000,
                  total_consultations := 1 }],
    slots := [], appointments := [c7apt], payments := [c7pay],
    wallets := [{ doctor_id := 1, current_balance := 800, total_earned := 800,
                  total_withdrawn := 0, pending_withdrawal := 0 }],
    txns := [], qr_codes := [1] }

/-- C5 fixture appointment: confirmed, starting at minute 600 of day 10. -/
def c5apt : Appointment :=
  { id := 1, user_id := 5, doctor_id := 1, slot_id := 1, date := 10,
    time := 600, status := AptStatus.confirmed, total_amount := 1000,
    platform_fee := 200, doctor_share := 800 }

/-- C5 fixture payment: paid. -/
def c5pay : Payment :=
  { appointment_id := 1, total_amount := 1000, platform_fee := 200,
    doctor_share := 800, razorpay_order_id := some 42,
    payment_status := PayStatus.paid }

/-- C5 fixture wallet: holds exactly the credited doctor share. -/
def c5wallet : Wallet :=
  { doctor_id := 1, current_balance := 800, total_earned := 800,
    total_withdrawn := 0, pending_withdrawal := 0 }

/-- C5 fixture state. -/
def c5state : State :=
  { users := [5],
    doctors := [{ id := 1, is_available := true, consultation_fee := 1000,
                  total_consultations := 1 }],
    slots := [], appointments := [c5apt], payments := [c5pay],
    wallets := [c5wallet], txns := [], qr_codes := [1] }

/-- C10 fixture doctor: current consultation fee 1000. -/
def c10doctor : Doctor :=
  { id := 1, is_available := true, consultation_fee := 1000,
    total_consultations := 1 }

/-- C10 fixture appointment: its recorded doctor_share is 800 (80% of
the fee), while the doctor's current fee is 1000. -/
def c10apt : Appointment :=
  { id := 1, user_id := 5, doctor_id := 1, slot_id := 1, date := 10,
    time := 600, status := AptStatus.confirmed, total_amount := 1000,
    platform_fee := 200, doctor_share := 800 }

/-- C10 fixture wallet: empty. -/
def c10wallet : Wallet :=
  { doctor_id := 1, current_balance := 0, total_earned := 0,
    total_withdrawn := 0, pending_withdrawal := 0 }

/-- C10 fixture state. -/
def c10state : State :=
  { users := [5], doctors := [c10doctor], slots := [], appointments := [c10apt],
    payments := [], wallets := [c10wallet], txns := [], qr_codes := [] }

/-! ## Theorems -/

/-- C2 counterexample: at total 7 the split computed by
`create_payment_order` (payments.py lines 412..416) gives
platform_fee 1 and doctor_share 5, so doctor_share is not
total minus platform_fee and the two halves sum to 6, not 7. -/
theorem C2_counterexample :
    (create_payment_order_split 7).2.2 ≠ 7 - (create_payment_order_split 7).2.1 ∧
    (create_payment_order_split 7).2.1 + (create_payment_order_split 7).2.2 ≠ 7 := by
  decide

/-- C2 (amended): the booking-time breakdown
(`calculate_payment_breakdown`) satisfies the claimed policy for every
total — platform_fee = floor(total * 20 / 100), doctor_share =
total - platform_fee, and the halves sum exactly to total.  The
payment-order-creation site (`create_payment_order_split`) computes the
same platform_fee but doctor_share = floor(total * 80 / 100), so there
the halves sum to total only when total is a multiple of 5, and to
total - 1 otherwise. -/
theorem C2_fee_split_sites (total : Nat) :
    (calculate_payment_breakdown total).2.1 = total * 20 / 100 ∧
    (calculate_payment_breakdown total).2.2 = total - total * 20 / 100 ∧
    (calculate_payment_breakdown total).2.1 + (calculate_payment_breakdown total).2.2 = total ∧
    (create_payment_order_split total).2.1 = total * 20 / 100 ∧
    (create_payment_order_split total).2.1 + (create_payment_order_split total).2.2
      = total - (if total % 5 = 0 then 0 else 1) := by
  refine ⟨rfl, rfl, ?_, rfl, ?_⟩
  · show total * 20 / 100 + (total - total * 20 / 100) = total
    omega
  · show total * 20 / 100 + total * 80 / 100 = total - (if total % 5 = 0 then 0 else 1)
    have h1 : total * 20 / 100 = total / 5 := by omega
    have h2 : total * 80 / 100 = total * 4 / 5 := by omega
    rw [h1, h2]
    split <;> omega

/-- A row returned by `findWallet` carries the key it was looked up by. -/
theorem findWallet_doctor_id {st : State} {d : Nat} {w : Wallet}
    (h : findWallet st d = some w) : w.doctor_id = d := by
  have hp := List.find?_some h
  simpa using hp

/-- `find?` commutes with a row update that preserves the predicate. -/
theorem find?_map_key {α : Type} (g : α → α) (p : α → Bool)
    (hp : ∀ w, p (g w) = p w) (l : List α) :
    (l.map g).find? p = (l.find? p).map g := by
  induction l with
  | nil => rfl
  | cons w l ih =>
      rw [List.map_cons, List.find?_cons, List.find?_cons, hp w]
      cases hpw : p w
      · simpa using ih
      · rfl

/-- `find?` on the rows updated by `updateWalletRows` returns the updated
row when the key was present. -/
theorem find?_updateWalletRows (st : State) (d : Nat) (f : Wallet → Wallet)
    (hf : ∀ v, (f v).doctor_id = v.doctor_id) (w : Wallet)
    (hw : findWallet st d = some w) :
    (updateWalletRows st d f).find? (fun v => v.doctor_id == d) = some (f w) := by
  have hw2 : st.wallets.find? (fun v => v.doctor_id == d) = some w := hw
  have hid : w.doctor_id = d := findWallet_doctor_id hw
  unfold updateWalletRows
  rw [find?_map_key _ _ ?hp, hw2]
  case hp =>
    intro v
    by_cases hv : v.doctor_id = d <;> simp [hv, hf]
  simp [hid]

/-- Each wallet operation preserves the reconciliation facts. -/
theorem wallet_inv_apply (st : State) (d : Nat) (op : WalletOp)
    (h : wallet_inv st d) : wallet_inv (applyWalletOp st d op) d := by
  obtain ⟨h1, h2⟩ := h
  cases op with
  | credit a apt =>
      show wallet_inv (credit_doctor_wallet st d a apt) d
      unfold wallet_inv credit_doctor_wallet
      cases hw : findWallet st d with
      | none =>
          have htx : st.txns.filter (fun t => t.doctor_id == d) = [] := h1 hw
          constructor
          · intro hno
            simp [findWallet, List.find?] at hno
          · intro w hwf
            simp only [findWallet, List.find?, beq_self_eq_true,
                       Option.some.injEq] at hwf
            subst hwf
            refine ⟨?_, ?_, ?_⟩
            · simp [txnsFor, List.filter_cons, htx]
            · simp [txnsFor, List.filter_cons, htx, debitSum]
            · exact Int.natCast_nonneg a
      | some wo =>
          have hid := findWallet_doctor_id hw
          obtain ⟨hb, he, hn⟩ := h2 wo hw
          simp only [txnsFor] at he
          have hupd := find?_updateWalletRows st d
            (fun v => { v with current_balance := v.current_balance + (a : Int),
                               total_earned := v.total_earned + (a : Int) })
            (fun v => rfl) wo hw
          constructor
          · intro hno
            simp only [findWallet] at hno
            rw [hupd] at hno
            cases hno
          · intro w hwf
            simp only [findWallet] at hwf
            rw [hupd, Option.some.injEq] at hwf
            subst hwf
            refine ⟨?_, ?_, ?_⟩
            · simp [txnsFor, List.filter_cons, hid]
            · simp only [txnsFor, List.filter_cons, hid, beq_self_eq_true,
                         if_true, debitSum]
              simp only [reduceCtorEq, if_false]
              omega
            · simp only []
              omega
  | debit a apt =>
      show wallet_inv
        (match debit_doctor_wallet st d a apt with
         | .ok s => s
         | .error _ => st) d
      cases hw : findWallet st d with
      | none =>
          simp only [debit_doctor_wallet, hw]
          exact ⟨h1, h2⟩
      | some wo =>
          have hid := findWallet_doctor_id hw
          obtain ⟨hb, he, hn⟩ := h2 wo hw
          simp only [txnsFor] at he
          simp only [debit_doctor_wallet, hw]
          by_cases hlt : wo.current_balance < (a : Int)
          · simp only [if_pos hlt]
            exact ⟨h1, h2⟩
          · simp only [if_neg hlt]
            have hupd := find?_updateWalletRows st d
              (fun v => { v with current_balance := v.current_balance - (a : Int) })
              (fun v => rfl) wo hw
            unfold wallet_inv
            constructor
            · intro hno
              simp only [findWallet] at hno
              rw [hupd] at hno
              cases hno
            · intro w hwf
              simp only [findWallet] at hwf
              rw [hupd, Option.some.injEq] at hwf
              subst hwf
              refine ⟨?_, ?_, ?_⟩
              · simp [txnsFor, List.filter_cons, hid]
              · simp only [txnsFor, List.filter_cons, hid, beq_self_eq_true,
                           if_true, debitSum]
                omega
              · simp only []
                omega
  | withdraw a =>
      show wallet_inv
        (match withdraw_earnings st d a with
         | .ok s => s
         | .error _ => st) d
      cases hw : findWallet st d with
      | none =>
          simp only [withdraw_earnings, hw]
          exact ⟨h1, h2⟩
      | some wo =>
          have hid := findWallet_doctor_id hw
          obtain ⟨hb, he, hn⟩ := h2 wo hw
          simp only [txnsFor] at he
          simp only [withdraw_earnings, hw]
          by_cases hmin : a < 500
          · simp only [if_pos hmin]
            exact ⟨h1, h2⟩
          · simp only [if_neg hmin]
            by_cases hlt : wo.current_balance < (a : Int)
            · simp only [if_pos hlt]
              exact ⟨h1, h2⟩
            · simp only [if_neg hlt]
              have hupd := find?_updateWalletRows st d
                (fun v =>
                  { v with current_balance := v.current_balance - (a : Int),
                           total_withdrawn := v.total_withdrawn + (a : Int),
                           pending_withdrawal := v.pending_withdrawal + (a : Int) })
                (fun v => rfl) wo hw
              unfold wallet_inv
              constructor
              · intro hno
                simp only [findWallet] at hno
                rw [hupd] at hno
                cases hno
              · intro w hwf
                simp only [findWallet] at hwf
                rw [hupd, Option.some.injEq] at hwf
                subst hwf
                refine ⟨?_, ?_, ?_⟩
                · simp [txnsFor, List.filter_cons, hid]
                · simp only [txnsFor, List.filter_cons, hid, beq_self_eq_true,
                             if_true, debitSum]
                  simp only [reduceCtorEq, if_false]
                  omega
                · simp only []
                  omega

/-- C3 (amended): across every sequence of committed wallet operations
starting from a fresh wallet, the wallet's `current_balance` equals the
`balance_after` of its chronologically last transaction (0 with no
transactions yet), equals `total_earned - total_withdrawn - (sum of the
refund-debit transactions)`, and never goes negative.  The claimed
identity subtracts `pending_withdrawal` as well, but `withdraw_earnings`
adds each withdrawal to BOTH `total_withdrawn` and `pending_withdrawal`,
so subtracting the open pending amount on top of `total_withdrawn`
double-counts it (see the counterexample), and refund debits change
neither `total_earned` nor `total_withdrawn`. -/
theorem C3_wallet_reconciliation (d : Nat) (ops : List WalletOp) :
    wallet_inv (run_wallet_ops (initial_wallet_state d) d ops) d := by
  have h0 : wallet_inv (initial_wallet_state d) d := by
    constructor
    · intro hno
      rfl
    · intro w hwf
      simp only [initial_wallet_state, findWallet, List.find?,
                 beq_self_eq_true] at hwf
      obtain rfl := Option.some.injEq .. ▸ hwf
      exact ⟨rfl, rfl, le_refl 0⟩
  suffices H : ∀ (l : List WalletOp) (st : State),
      wallet_inv st d → wallet_inv (run_wallet_ops st d l) d from
    H ops _ h0
  intro l
  induction l with
  | nil => exact fun st h => h
  | cons op l ih => exact fun st h => ih _ (wallet_inv_apply st d op h)

/-- C3 counterexample: from a fresh wallet, after a committed credit of
₹800 and a committed withdrawal of ₹500 the wallet reads
current_balance 300, total_earned 800, total_withdrawn 500,
pending_withdrawal 500 — and 300 ≠ 800 - 500 - 500, refuting the
claimed identity current_balance = total_earned - total_withdrawn -
pending_withdrawal (the other two claimed facts do hold, see the
amended theorem). -/
theorem C3_counterexample :
    findWallet (run_wallet_ops (initial_wallet_state 1) 1
        [WalletOp.credit 800 1, WalletOp.withdraw 500]) 1 =
      some { doctor_id := 1, current_balance := 300, total_earned := 800,
             total_withdrawn := 500, pending_withdrawal := 500 } ∧
    ¬ (300 : Int) = 800 - 500 - 500 := by
  exact ⟨rfl, by decide⟩

/-- A state update that only replaces the payments and appointments
tables leaves wallet lookups unchanged. -/
theorem findWallet_set_pa (st : State) (ps : List Payment)
    (la : List Appointment) (d : Nat) :
    findWallet { st with payments := ps, appointments := la } d = findWallet st d := rfl

/-- `credit_doctor_wallet` never touches the payments table. -/
theorem credit_payments_eq (s : State) (d a aid : Nat) :
    (credit_doctor_wallet s d a aid).payments = s.payments := by
  cases h : findWallet s d <;> simp [credit_doctor_wallet, h]

/-- `complete_appointment` never touches the payments table: completion
credits the wallet directly, it creates no payment record. -/
theorem complete_appointment_payments {s : State} {did aid : Nat} {s2 : State}
    (h : complete_appointment s did aid = .ok s2) : s2.payments = s.payments := by
  unfold complete_appointment at h
  cases h1 : findDoctor s did <;> simp only [h1] at h
  case none => exact Except.noConfusion h
  case some doctor =>
    cases h2 : s.appointments.find? (fun a => a.id == aid && a.doctor_id == did) <;>
      simp only [h2] at h
    case none => exact Except.noConfusion h
    case some apt =>
      cases h3 : findWallet s did <;> simp only [h3, Except.ok.injEq] at h
      case none => rw [← h]
      case some w => rw [← h]

/-- C4: `book_appointment` never consults `is_blocked`.  Evaluating the
handler on a state whose only slot is blocked (and not booked), with
every other precondition satisfied: the booking succeeds, and the
resulting state holds a slot that is simultaneously booked and blocked —
the claim says the booking must fail and such a state be unreachable. -/
theorem C4_blocked_slot_gets_booked :
    (findSlot c4state 1).map (fun s => (s.is_booked, s.is_blocked)) = some (false, true) ∧
    ((book_appointment c4state (10 * 1440 + 480) c4req 7 8).toOption.bind
        (fun st2 => findSlot st2 1)).map (fun s => (s.is_booked, s.is_blocked))
      = some (true, true) := ⟨rfl, rfl⟩

/-- C1: the client verify endpoint performs no already-paid check.
Evaluating the model: settling payment order 42 (doctor_share 800) via
`verify_payment` and then calling `verify_payment` again with the same
valid payment id leaves the doctor's wallet at 1600 — the share was
credited twice, not once — while the claim requires the second call to
be a no-op.  The second conjunct shows the asynchronous webhook path IS
idempotent after the first settlement (a captured event returns the
state unchanged): the guard exists only on that path. -/
theorem C1_verify_settles_twice :
    ((verify_payment c1state true 5 1).toOption.bind
        (fun s => (verify_payment s true 5 1).toOption)).map
      (fun s => ((findWallet s 1).map (fun w => w.current_balance),
                 (s.appointments.find? (fun a => a.id == 1)).map (fun a => a.status)))
      = some (some 1600, some AptStatus.confirmed) ∧
    (verify_payment c1state true 5 1).toOption.map (fun s => webhook_payment_captured s 42)
      = (verify_payment c1state true 5 1).toOption := ⟨rfl, rfl⟩

/-- C6 counterexample: a pay-at-clinic booking against a state with no
payment rows creates an `AppointmentPayment` row at booking time
(status pending, no gateway order id) — the claim says none is created
until consultation completion. -/
theorem C6_counterexample :
    c6state.payments = [] ∧
    ((book_appointment c6state (10 * 1440 + 480) c6req 9 0).toOption.map
      (fun s => (findPaymentByAppointment s 9,
                 (s.appointments.find? (fun a => a.id == 9)).map (fun a => a.status))))
      = some (some { appointment_id := 9, total_amount := 1000, platform_fee := 200,
                     doctor_share := 800, razorpay_order_id := none,
                     payment_status := PayStatus.pending },
              some AptStatus.confirmed) := ⟨rfl, rfl⟩

/-- C6 (amended): a successful pay-at-clinic booking confirms the
appointment immediately and creates no gateway order, but DOES create a
Payment Record at booking time: an `AppointmentPayment` row in pending
status with a NULL gateway order id, carrying the booking-time fee
split.  At consultation-completion time no payment record is created —
completion credits the wallet directly
(`complete_appointment_payments`). -/
theorem C6_pay_at_clinic (st : State) (now : Int) (req : BookRequest)
    (bid gid : Nat) (doctor : Doctor) (slot : Slot)
    (hu : st.users.contains req.user_id = true)
    (hd : st.doctors.find? (fun doc => doc.id == req.doctor_id && doc.is_available) = some doctor)
    (hs : findSlot st req.slot_id = some slot)
    (hnb : slot.is_booked = false)
    (hdm : slot.doctor_id = req.doctor_id)
    (hdt : slot.date = req.date)
    (hlead : now + 60 < req.date * 1440 + slot.start)
    (hcap : daily_appointments st req.doctor_id req.date < 20)
    (hm : req.payment_method = PayMethod.pay_at_clinic) :
    ∃ st2, book_appointment st now req bid gid = .ok st2 ∧
      st2.appointments.head? = some
        { id := bid, user_id := req.user_id, doctor_id := req.doctor_id,
          slot_id := req.slot_id, date := req.date, time := slot.start,
          status := AptStatus.confirmed,
          total_amount := doctor.consultation_fee,
          platform_fee := doctor.consultation_fee * 20 / 100,
          doctor_share := doctor.consultation_fee - doctor.consultation_fee * 20 / 100 } ∧
      findPaymentByAppointment st2 bid = some
        { appointment_id := bid, total_amount := doctor.consultation_fee,
          platform_fee := doctor.consultation_fee * 20 / 100,
          doctor_share := doctor.consultation_fee - doctor.consultation_fee * 20 / 100,
          razorpay_order_id := none, payment_status := PayStatus.pending } ∧
      (∀ s did aid s2, complete_appointment s did aid = .ok s2 → s2.payments = s.payments) := by
  simp only [book_appointment, hu, hd, hs, hnb, hdm, hdt, hm, bne_self_eq_false,
             Bool.false_eq_true, if_false, reduceCtorEq]
  rw [if_neg (by omega), if_neg (by omega), if_neg (by omega)]
  cases hfw : findWallet { st with
      appointments := _ :: st.appointments,
      payments := _ :: st.payments,
      slots := st.slots.map (fun s =>
        if s.id == req.slot_id then { s with is_booked := true } else s) } req.doctor_id with
  | none =>
      refine ⟨_, rfl, ?_, ?_, fun s did aid s2 h => complete_appointment_payments h⟩
      · rfl
      · simp [findPaymentByAppointment, List.find?, calculate_payment_breakdown]
  | some w =>
      refine ⟨_, rfl, ?_, ?_, fun s did aid s2 h => complete_appointment_payments h⟩
      · rfl
      · simp [findPaymentByAppointment, List.find?, calculate_payment_breakdown]

/-- C7 counterexample: a `payment.failed` webhook event arriving for a
payment that is already paid moves its status from paid back to failed —
the claim says a paid payment never regresses. -/
theorem C7_counterexample :
    (findPaymentByOrder c7state 42).map (fun p => p.payment_status) = some PayStatus.paid ∧
    (findPaymentByOrder (webhook_payment_failed c7state 42) 42).map (fun p => p.payment_status)
      = some PayStatus.failed := ⟨rfl, rfl⟩

/-- C7 (amended): the only forward-only guard is on the captured path:
a `payment.captured` event for an already-paid payment is a complete
no-op, and a captured event always leaves the payment paid (so a failed
or refunded payment is moved to paid by a late captured event); a
`payment.failed` event always leaves the payment failed, regardless of
its current status (so a paid or refunded payment regresses to failed
on a late failed event).  Statuses therefore do not only advance
forward. -/
theorem C7_settlement_transitions (st : State) (oid : Nat) (p : Payment)
    (hp : findPaymentByOrder st oid = some p) :
    (p.payment_status = PayStatus.paid → webhook_payment_captured st oid = st) ∧
    (findPaymentByOrder (webhook_payment_captured st oid) oid).map
        (fun q => q.payment_status) = some PayStatus.paid ∧
    (findPaymentByOrder (webhook_payment_failed st oid) oid).map
        (fun q => q.payment_status) = some PayStatus.failed := by
  have hp2 : st.payments.find? (fun q => q.razorpay_order_id == some oid) = some p := hp
  have hpro := List.find?_some hp2
  have hpo : p.razorpay_order_id = some oid := by simpa using hpro
  have hqpaid : ∀ x : Payment,
      ((if x.razorpay_order_id == some oid then
          { x with payment_status := PayStatus.paid } else x).razorpay_order_id == some oid)
        = (x.razorpay_order_id == some oid) := by
    intro x
    by_cases hx : (x.razorpay_order_id == some oid) = true <;> simp [hx]
  have hqfail : ∀ x : Payment,
      ((if x.razorpay_order_id == some oid then
          { x with payment_status := PayStatus.failed } else x).razorpay_order_id == some oid)
        = (x.razorpay_order_id == some oid) := by
    intro x
    by_cases hx : (x.razorpay_order_id == some oid) = true <;> simp [hx]
  refine ⟨?_, ?_, ?_⟩
  · intro hpaid
    simp [webhook_payment_captured, hp, hpaid]
  · by_cases hpd : p.payment_status = PayStatus.paid
    · simp only [webhook_payment_captured, hp, if_pos hpd]
      simp [hp, hpd]
    · simp only [webhook_payment_captured, hp, if_neg hpd]
      cases hfa : st.appointments.find? (fun a => a.id == p.appointment_id) with
      | none =>
          simp only [findPaymentByOrder]
          rw [find?_map_key _ _ hqpaid st.payments, hp2]
          simp [hpo]
      | some appointment =>
          simp only [findPaymentByOrder, credit_payments_eq]
          by_cases hqr : st.qr_codes.contains p.appointment_id = true
          · simp only [if_pos hqr]
            rw [find?_map_key _ _ hqpaid st.payments, hp2]
            simp [hpo]
          · simp only [if_neg hqr]
            rw [find?_map_key _ _ hqpaid st.payments, hp2]
            simp [hpo]
  · simp only [webhook_payment_failed, hp]
    simp only [findPaymentByOrder]
    rw [find?_map_key _ _ hqfail st.payments, hp2]
    simp [hpo]

/-- C8 counterexample: with twenty non-cancelled (COMPLETED)
appointments of the doctor on the date, the cap guard counts zero —
it only counts confirmed/payment_pending — and a 21st booking for that
date succeeds, while the claim requires a capacity rejection. -/
theorem C8_counterexample :
    noncancelled_appointments c8state 1 10 = 20 ∧
    daily_appointments c8state 1 10 = 0 ∧
    (book_appointment c8state (10 * 1440 + 480) c8req 207 208).isOk = true := by
  refine ⟨by decide, by decide, by decide⟩

/-- C8 (amended): the daily-cap guard counts only the doctor's
confirmed and payment_pending appointments on the date
(`daily_appointments`), not all non-cancelled ones: with at least 20
such appointments the booking is rejected with the capacity error
regardless of slot availability, and with fewer than 20 the cap check
passes (all other preconditions holding, the booking succeeds). -/
theorem C8_daily_cap (st : State) (now : Int) (req : BookRequest)
    (bid gid : Nat) (doctor : Doctor) (slot : Slot)
    (hu : st.users.contains req.user_id = true)
    (hd : st.doctors.find? (fun doc => doc.id == req.doctor_id && doc.is_available) = some doctor)
    (hs : findSlot st req.slot_id = some slot)
    (hnb : slot.is_booked = false)
    (hdm : slot.doctor_id = req.doctor_id)
    (hdt : slot.date = req.date)
    (hlead : now + 60 < req.date * 1440 + slot.start) :
    (20 ≤ daily_appointments st req.doctor_id req.date →
      book_appointment st now req bid gid = .error BookError.dailyCapReached) ∧
    (daily_appointments st req.doctor_id req.date < 20 →
      ∃ st2, book_appointment st now req bid gid = .ok st2) := by
  constructor
  · intro hcap
    simp only [book_appointment, hu, hd, hs, hnb, hdm, hdt, bne_self_eq_false,
               Bool.false_eq_true, if_false, reduceCtorEq]
    rw [if_neg (by omega), if_neg (by omega), if_pos hcap]
  · intro hcap
    simp only [book_appointment, hu, hd, hs, hnb, hdm, hdt, bne_self_eq_false,
               Bool.false_eq_true, if_false, reduceCtorEq]
    rw [if_neg (by omega), if_neg (by omega), if_neg (by omega)]
    exact ⟨_, rfl⟩

/-- C9: with every other precondition satisfied, a booking whose slot
starts in the past or less than 60 minutes from now is rejected — with
the past-time or minimum-lead-time error, before any state change (the
handler mutates nothing on any error path) — and a booking whose slot
starts more than 60 minutes from now passes both lead-time checks and
succeeds. -/
theorem C9_min_lead_time (st : State) (now : Int) (req : BookRequest)
    (bid gid : Nat) (doctor : Doctor) (slot : Slot)
    (hu : st.users.contains req.user_id = true)
    (hd : st.doctors.find? (fun doc => doc.id == req.doctor_id && doc.is_available) = some doctor)
    (hs : findSlot st req.slot_id = some slot)
    (hnb : slot.is_booked = false)
    (hdm : slot.doctor_id = req.doctor_id)
    (hdt : slot.date = req.date)
    (hcap : daily_appointments st req.doctor_id req.date < 20) :
    (req.date * 1440 + slot.start < now + 60 →
      book_appointment st now req bid gid =
        .error (if req.date * 1440 + slot.start ≤ now then BookError.pastTime
                else BookError.minLeadTime)) ∧
    (now + 60 < req.date * 1440 + slot.start →
      ∃ st2, book_appointment st now req bid gid = .ok st2) := by
  constructor
  · intro hlt
    simp only [book_appointment, hu, hd, hs, hnb, hdm, hdt, bne_self_eq_false,
               Bool.false_eq_true, if_false, reduceCtorEq]
    by_cases hpast : req.date * 1440 + slot.start ≤ now
    · rw [if_pos hpast, if_pos hpast]
    · rw [if_neg hpast, if_neg hpast, if_pos (by omega)]
  · intro hgt
    simp only [book_appointment, hu, hd, hs, hnb, hdm, hdt, bne_self_eq_false,
               Bool.false_eq_true, if_false, reduceCtorEq]
    rw [if_neg (by omega), if_neg (by omega), if_neg (by omega)]
    exact ⟨_, rfl⟩

/-- C10: `complete_appointment` marks any appointment of the doctor
completed — regardless of its current status, payment method, or any
wallet credit already made for it — and, whenever a wallet row exists,
credits the doctor's CURRENT `consultation_fee` (not the appointment's
recorded `doctor_share`), appending a credit transaction with a NULL
appointment id; with no wallet row, the wallet and transaction tables
are untouched (no lazy wallet creation on this path). -/
theorem C10_complete_credits_current_fee (st : State) (did aid : Nat)
    (doctor : Doctor) (apt : Appointment)
    (hd : findDoctor st did = some doctor)
    (ha : st.appointments.find? (fun a => a.id == aid && a.doctor_id == did) = some apt) :
    ∃ st2, complete_appointment st did aid = .ok st2 ∧
      (st2.appointments.find? (fun a => a.id == aid && a.doctor_id == did)).map
          (fun a => a.status) = some AptStatus.completed ∧
      (∀ w, findWallet st did = some w →
        findWallet st2 did = some
          { w with
            current_balance := w.current_balance + (doctor.consultation_fee : Int),
            total_earned := w.total_earned + (doctor.consultation_fee : Int) } ∧
        st2.txns.head? = some
          { doctor_id := did, appointment_id := none,
            amount := (doctor.consultation_fee : Int),
            transaction_type := TxnType.credit,
            balance_before := w.current_balance,
            balance_after := w.current_balance + (doctor.consultation_fee : Int) }) ∧
      (findWallet st did = none → st2.wallets = st.wallets ∧ st2.txns = st.txns) := by
  have hpa := List.find?_some ha
  have hp : ∀ x : Appointment,
      ((if x.id == aid && x.doctor_id == did then
          { x with status := AptStatus.completed } else x).id == aid &&
        (if x.id == aid && x.doctor_id == did then
          { x with status := AptStatus.completed } else x).doctor_id == did)
        = (x.id == aid && x.doctor_id == did) := by
    intro x
    by_cases hx : (x.id == aid && x.doctor_id == did) = true <;> simp [hx]
  simp only [complete_appointment, hd, ha]
  cases hfw : findWallet st did with
  | none =>
      refine ⟨_, rfl, ?_, ?_, fun h => ⟨rfl, rfl⟩⟩
      · rw [show (st.appointments.map (fun a =>
              if a.id == aid && a.doctor_id == did then
                { a with status := AptStatus.completed } else a)).find?
              (fun a => a.id == aid && a.doctor_id == did)
            = ((st.appointments.find? (fun a => a.id == aid && a.doctor_id == did)).map
                (fun a => if a.id == aid && a.doctor_id == did then
                  { a with status := AptStatus.completed } else a))
            from find?_map_key _ _ hp st.appointments, ha]
        obtain ⟨h1, h2⟩ : apt.id = aid ∧ apt.doctor_id = did := by simpa using hpa
        simp [h1, h2]
      · intro w hw
        exact Option.noConfusion hw
  | some w =>
      have hupd := find?_updateWalletRows
        { st with
          appointments := st.appointments.map (fun a =>
            if a.id == aid && a.doctor_id == did then
              { a with status := AptStatus.completed } else a),
          doctors := st.doctors.map (fun doc =>
            if doc.id == did then
              { doc with total_consultations := doc.total_consultations + 1 }
            else doc) } did
        (fun v =>
          { v with
            current_balance := v.current_balance + (doctor.consultation_fee : Int),
            total_earned := v.total_earned + (doctor.consultation_fee : Int) })
        (fun v => rfl) w hfw
      refine ⟨_, rfl, ?_, ?_, ?_⟩
      · rw [show (st.appointments.map (fun a =>
              if a.id == aid && a.doctor_id == did then
                { a with status := AptStatus.completed } else a)).find?
              (fun a => a.id == aid && a.doctor_id == did)
            = ((st.appointments.find? (fun a => a.id == aid && a.doctor_id == did)).map
                (fun a => if a.id == aid && a.doctor_id == did then
                  { a with status := AptStatus.completed } else a))
            from find?_map_key _ _ hp st.appointments, ha]
        obtain ⟨h1, h2⟩ : apt.id = aid ∧ apt.doctor_id = did := by simpa using hpa
        simp [h1, h2]
      · intro w2 hw2
        injection hw2 with hw2
        subst hw2
        constructor
        · simp only [findWallet]
          rw [hupd]
        · rfl
      · intro h
        exact Option.noConfusion h

/-- C5: for a paid payment on an appointment at least 24 hours away, a
successful refund marks the payment refunded and the appointment
cancelled in one commit, and then debits the doctor's wallet by exactly
the `doctor_share` recorded on the payment — the amount credited at
settlement — appending the matching debit transaction; when the wallet
balance is below the share, the debit raises insufficient-funds and the
wallet and transaction log stay unchanged (no clamping). -/
theorem C5_refund_consistency (st : State) (now : Int) (uid oid : Nat)
    (apt : Appointment) (payment : Payment) (w : Wallet)
    (ha : st.appointments.find? (fun a => a.id == oid && a.user_id == uid) = some apt)
    (hconf : apt.status = AptStatus.confirmed)
    (hp : findPaymentByAppointment st oid = some payment)
    (hpaid : payment.payment_status = PayStatus.paid)
    (htime : 24 * 60 ≤ apt.date * 1440 + apt.time - now)
    (hw : findWallet st apt.doctor_id = some w) :
    ∃ st2, initiate_refund st now uid oid = .ok st2 ∧
      (findPaymentByAppointment st2 oid).map (fun p => p.payment_status)
        = some PayStatus.refunded ∧
      (st2.appointments.find? (fun a => a.id == oid && a.user_id == uid)).map
          (fun a => a.status) = some AptStatus.cancelled ∧
      ((payment.doctor_share : Int) ≤ w.current_balance →
        findWallet st2 apt.doctor_id = some
          { w with current_balance := w.current_balance - (payment.doctor_share : Int) } ∧
        st2.txns.head? = some
          { doctor_id := apt.doctor_id, appointment_id := some oid,
            amount := (payment.doctor_share : Int),
            transaction_type := TxnType.debit,
            balance_before := w.current_balance,
            balance_after := w.current_balance - (payment.doctor_share : Int) }) ∧
      (w.current_balance < (payment.doctor_share : Int) →
        findWallet st2 apt.doctor_id = some w ∧ st2.txns = st.txns) := by
  have hp2 : st.payments.find? (fun p => p.appointment_id == oid) = some payment := hp
  have hppa := List.find?_some hp2
  have hpo : payment.appointment_id = oid := by simpa using hppa
  have haa := List.find?_some ha
  obtain ⟨ha1, ha2⟩ : apt.id = oid ∧ apt.user_id = uid := by simpa using haa
  have hpp : ∀ x : Payment,
      ((if x.appointment_id == oid then
          { x with payment_status := PayStatus.refunded } else x).appointment_id == oid)
        = (x.appointment_id == oid) := by
    intro x
    by_cases hx : (x.appointment_id == oid) = true <;> simp [hx]
  have hpa : ∀ x : Appointment,
      ((if x.id == oid then { x with status := AptStatus.cancelled } else x).id == oid &&
       (if x.id == oid then { x with status := AptStatus.cancelled } else x).user_id == uid)
        = (x.id == oid && x.user_id == uid) := by
    intro x
    by_cases hx : (x.id == oid) = true <;> simp [hx]
  simp only [initiate_refund, ha, hp, hpaid, bne_self_eq_false, Bool.false_eq_true,
             if_false, reduceCtorEq]
  rw [if_neg (by omega)]
  simp only [debit_doctor_wallet, findWallet_set_pa, hw]
  by_cases hbal : w.current_balance < (payment.doctor_share : Int)
  · simp only [if_pos hbal]
    refine ⟨_, rfl, ?_, ?_, fun hle => absurd hle (by omega), fun _ => ⟨?_, rfl⟩⟩
    · simp only [findPaymentByAppointment]
      rw [find?_map_key _ _ hpp st.payments, hp2]
      simp [hpo]
    · rw [find?_map_key _ _ hpa st.appointments, ha]
      simp [ha1]
    · rw [findWallet_set_pa, hw]
  · simp only [if_neg hbal]
    have hupd := find?_updateWalletRows
      { st with
        payments := st.payments.map (fun p =>
          if p.appointment_id == oid then
            { p with payment_status := PayStatus.refunded } else p),
        appointments := st.appointments.map (fun a =>
          if a.id == oid then { a with status := AptStatus.cancelled } else a) }
      apt.doctor_id
      (fun v => { v with current_balance := v.current_balance - (payment.doctor_share : Int) })
      (fun v => rfl) w hw
    refine ⟨_, rfl, ?_, ?_, fun hle => ⟨?_, rfl⟩, fun hlt => absurd hlt (by omega)⟩
    · simp only [findPaymentByAppointment]
      rw [find?_map_key _ _ hpp st.payments, hp2]
      simp [hpo]
    · rw [find?_map_key _ _ hpa st.appointments, ha]
      simp [ha1]
    · simp only [findWallet]
      rw [hupd]

/-- C5 witness: the refund theorem applied at the concrete fixture —
paid payment of share 800, wallet balance 800, appointment more than 24
hours away. -/
theorem C5_refund_consistency_witness :
    (c5state.appointments.find? (fun a => a.id == 1 && a.user_id == 5) = some c5apt ∧
     c5apt.status = AptStatus.confirmed ∧
     findPaymentByAppointment c5state 1 = some c5pay ∧
     c5pay.payment_status = PayStatus.paid ∧
     24 * 60 ≤ c5apt.date * 1440 + c5apt.time - (0 : Int) ∧
     findWallet c5state c5apt.doctor_id = some c5wallet) ∧
    (∃ st2, initiate_refund c5state 0 5 1 = .ok st2 ∧
      (findPaymentByAppointment st2 1).map (fun p => p.payment_status)
        = some PayStatus.refunded ∧
      (st2.appointments.find? (fun a => a.id == 1 && a.user_id == 5)).map
          (fun a => a.status) = some AptStatus.cancelled ∧
      ((c5pay.doctor_share : Int) ≤ c5wallet.current_balance →
        findWallet st2 c5apt.doctor_id = some
          { c5wallet with
            current_balance := c5wallet.current_balance - (c5pay.doctor_share : Int) } ∧
        st2.txns.head? = some
          { doctor_id := c5apt.doctor_id, appointment_id := some 1,
            amount := (c5pay.doctor_share : Int),
            transaction_type := TxnType.debit,
            balance_before := c5wallet.current_balance,
            balance_after := c5wallet.current_balance - (c5pay.doctor_share : Int) }) ∧
      (c5wallet.current_balance < (c5pay.doctor_share : Int) →
        findWallet st2 c5apt.doctor_id = some c5wallet ∧ st2.txns = c5state.txns)) :=
  ⟨⟨by decide, by decide, by decide, by decide, by decide, by decide⟩,
   C5_refund_consistency c5state 0 5 1 c5apt c5pay c5wallet
     (by decide) (by decide) (by decide) (by decide) (by decide) (by decide)⟩

/-- C6 witness: the amended pay-at-clinic theorem applied at the
concrete fixture. -/
theorem C6_pay_at_clinic_witness :
    (c6state.users.contains c6req.user_id = true ∧
     c6state.doctors.find? (fun doc => doc.id == c6req.doctor_id && doc.is_available)
       = some c6doctor ∧
     findSlot c6state c6req.slot_id = some c6slot ∧
     c6slot.is_booked = false ∧
     c6slot.doctor_id = c6req.doctor_id ∧
     c6slot.date = c6req.date ∧
     (10 * 1440 + 480 : Int) + 60 < c6req.date * 1440 + c6slot.start ∧
     daily_appointments c6state c6req.doctor_id c6req.date < 20 ∧
     c6req.payment_method = PayMethod.pay_at_clinic) ∧
    (∃ st2, book_appointment c6state (10 * 1440 + 480) c6req 9 0 = .ok st2 ∧
      st2.appointments.head? = some
        { id := 9, user_id := c6req.user_id, doctor_id := c6req.doctor_id,
          slot_id := c6req.slot_id, date := c6req.date, time := c6slot.start,
          status := AptStatus.confirmed,
          total_amount := c6doctor.consultation_fee,
          platform_fee := c6doctor.consultation_fee * 20 / 100,
          doctor_share := c6doctor.consultation_fee - c6doctor.consultation_fee * 20 / 100 } ∧
      findPaymentByAppointment st2 9 = some
        { appointment_id := 9, total_amount := c6doctor.consultation_fee,
          platform_fee := c6doctor.consultation_fee * 20 / 100,
          doctor_share := c6doctor.consultation_fee - c6doctor.consultation_fee * 20 / 100,
          razorpay_order_id := none, payment_status := PayStatus.pending } ∧
      (∀ s did aid s2, complete_appointment s did aid = .ok s2 → s2.payments = s.payments)) :=
  ⟨⟨by decide, by decide, by decide, by decide, by decide, by decide, by decide,
    by decide, by decide⟩,
   C6_pay_at_clinic c6state (10 * 1440 + 480) c6req 9 0 c6doctor c6slot
     (by decide) (by decide) (by decide) (by decide) (by decide) (by decide)
     (by decide) (by decide) (by decide)⟩

/-- C7 witness: the transition theorem applied at the concrete fixture
with payment order 42 already paid. -/
theorem C7_settlement_transitions_witness :
    (findPaymentByOrder c7state 42 = some c7pay) ∧
    ((c7pay.payment_status = PayStatus.paid → webhook_payment_captured c7state 42 = c7state) ∧
     (findPaymentByOrder (webhook_payment_captured c7state 42) 42).map
         (fun q => q.payment_status) = some PayStatus.paid ∧
     (findPaymentByOrder (webhook_payment_failed c7state 42) 42).map
         (fun q => q.payment_status) = some PayStatus.failed) :=
  ⟨by decide, C7_settlement_transitions c7state 42 c7pay (by decide)⟩

/-- C8 witness: the amended cap theorem applied at the fixture with
twenty confirmed appointments. -/
theorem C8_daily_cap_witness :
    (c8state2.users.contains c8req.user_id = true ∧
     c8state2.doctors.find? (fun doc => doc.id == c8req.doctor_id && doc.is_available)
       = some c8doctor ∧
     findSlot c8state2 c8req.slot_id = some c8slot ∧
     c8slot.is_booked = false ∧
     c8slot.doctor_id = c8req.doctor_id ∧
     c8slot.date = c8req.date ∧
     (10 * 1440 + 480 : Int) + 60 < c8req.date * 1440 + c8slot.start) ∧
    ((20 ≤ daily_appointments c8state2 c8req.doctor_id c8req.date →
      book_appointment c8state2 (10 * 1440 + 480) c8req 207 208
        = .error BookError.dailyCapReached) ∧
     (daily_appointments c8state2 c8req.doctor_id c8req.date < 20 →
      ∃ st2, book_appointment c8state2 (10 * 1440 + 480) c8req 207 208 = .ok st2)) :=
  ⟨⟨by decide, by decide, by decide, by decide, by decide, by decide, by decide⟩,
   C8_daily_cap c8state2 (10 * 1440 + 480) c8req 207 208 c8doctor c8slot
     (by decide) (by decide) (by decide) (by decide) (by decide) (by decide) (by decide)⟩

/-- C9 witness: the lead-time theorem applied at the concrete fixture
with the slot starting 59 minutes from now (rejected). -/
theorem C9_min_lead_time_witness :
    (c9state.users.contains c9req.user_id = true ∧
     c9state.doctors.find? (fun doc => doc.id == c9req.doctor_id && doc.is_available)
       = some c9doctor ∧
     findSlot c9state c9req.slot_id = some c9slot ∧
     c9slot.is_booked = false ∧
     c9slot.doctor_id = c9req.doctor_id ∧
     c9slot.date = c9req.date ∧
     daily_appointments c9state c9req.doctor_id c9req.date < 20) ∧
    ((c9req.date * 1440 + c9slot.start < (10 * 1440 + 541 : Int) + 60 →
      book_appointment c9state (10 * 1440 + 541) c9req 7 8 =
        .error (if c9req.date * 1440 + c9slot.start ≤ (10 * 1440 + 541 : Int)
                then BookError.pastTime else BookError.minLeadTime)) ∧
     ((10 * 1440 + 541 : Int) + 60 < c9req.date * 1440 + c9slot.start →
      ∃ st2, book_appointment c9state (10 * 1440 + 541) c9req 7 8 = .ok st2)) :=
  ⟨⟨by decide, by decide, by decide, by decide, by decide, by decide, by decide⟩,
   C9_min_lead_time c9state (10 * 1440 + 541) c9req 7 8 c9doctor c9slot
     (by decide) (by decide) (by decide) (by decide) (by decide) (by decide) (by decide)⟩

/-- C10 witness: the completion theorem applied at the concrete
fixture — the appointment's recorded doctor_share is 800, yet the
wallet is credited the doctor's current fee of 1000. -/
theorem C10_complete_credits_current_fee_witness :
    (findDoctor c10state 1 = some c10doctor ∧
     c10state.appointments.find? (fun a => a.id == 1 && a.doctor_id == 1) = some c10apt) ∧
    (∃ st2, complete_appointment c10state 1 1 = .ok st2 ∧
      (st2.appointments.find? (fun a => a.id == 1 && a.doctor_id == 1)).map
          (fun a => a.status) = some AptStatus.completed ∧
      (∀ w, findWallet c10state 1 = some w →
        findWallet st2 1 = some
          { w with
            current_balance := w.current_balance + (c10doctor.consultation_fee : Int),
            total_earned := w.total_earned + (c10doctor.consultation_fee : Int) } ∧
        st2.txns.head? = some
          { doctor_id := 1, appointment_id := none,
            amount := (c10doctor.consultation_fee : Int),
            transaction_type := TxnType.credit,
            balance_before := w.current_balance,
            balance_after := w.current_balance + (c10doctor.consultation_fee : Int) }) ∧
      (findWallet c10state 1 = none → st2.wallets = c10state.wallets ∧ st2.txns = c10state.txns)) :=
  ⟨⟨by decide, by decide⟩,
   C10_complete_credits_current_fee c10state 1 1 c10doctor c10apt (by decide) (by decide)⟩

end Hospital
